import Mathlib

/-!
Verification development for the AI Orchestrator repository
(`src/main.py`, `src/ai_connectors.py`).

The orchestration core is embedded shallowly: the module-level mutable
globals of `main.py` (pending artifact slots, memory bundle, persisted
file, temp files, history) become an explicit record `OrchState`,
and each Python function that the properties concern becomes a Lean
function on that record.  External effects are made explicit:

* text displayed via `update_history` is modelled as an appended list of
  structured `Msg` events, one event per `update_history` call site that
  the embedded code reaches (the exact rendered characters, emoji and
  80-column wrapping of `update_history` are display-only and are not
  modelled);
* the outcome of `subprocess.run` is an `ExecOutcome` argument;
* the outcome of `json.loads` on a self-modification body and of the
  `exec` fallback are a `SelfModParse` argument;
* provider network calls are an `Except` argument;
* `datetime.datetime.now().isoformat()` is a timestamp argument;
* the pickle file `ai_memory.pkl` is an `Option SavedData` field
  (pickle faithfully round-trips the stored values, so serialisation is
  modelled as the identity).

Python text is modelled as `List Char`; `str.find`, slicing and
`str.strip` are reimplemented below with Python semantics.
-/

/-- Python text, as a list of characters. -/
abbrev Text := List Char

/-- The ASCII whitespace characters stripped by Python `str.strip()`
(space, tab, newline, carriage return, vertical tab, form feed). -/
def isPyWS (c : Char) : Bool :=
  c == ' ' || c == '\t' || c == '\n' || c == '\r' ||
  c == Char.ofNat 11 || c == Char.ofNat 12

/-- Python `s.strip()`: drop whitespace from both ends. -/
def pyStrip (s : Text) : Text :=
  ((s.dropWhile isPyWS).reverse.dropWhile isPyWS).reverse

/-- Helper for `findSub`: first index `≥ i` at which `pat` occurs. -/
def findSubAux (pat : Text) : Text → Nat → Option Nat
  | [], i => if pat = [] then some i else none
  | c :: t, i =>
      if pat.isPrefixOf (c :: t) then some i else findSubAux pat t (i + 1)

/-- Python `s.find(pat)` restricted to the found case: the least index at
which `pat` occurs as a substring of `s`, or `none` (Python returns -1). -/
def findSub (s pat : Text) : Option Nat :=
  findSubAux pat s 0

/-- Python `pat in s` (substring containment). -/
def containsSub (s pat : Text) : Bool :=
  (findSub s pat).isSome

/-- Python slice `s[a:b]` for nonnegative `a`, `b` (indices clamp to the
length, and `b ≤ a` yields the empty string). -/
def pySlice (s : Text) (a b : Nat) : Text :=
  (s.drop a).take (b - a)

/-- An entry of `learned_patterns` (`main.py` lines 236-240). -/
structure Pattern where
  pattern : Text
  learned_from : Text
  timestamp : Text
deriving DecidableEq, Repr

/-- The `description` value of an evolution entry.  In the source it is a
Python f-string rendering; the model keeps the data the string renders:
either the structured modification that was applied, or the first 100
characters of the executed self-modification body. -/
inductive EvoDescr where
  | appliedMod (memory_update : Option (List (Text × Text)))
      (new_pattern : Option Text) (new_function : Option (Text × Text))
  | execCode (bodyPrefix : Text)
deriving DecidableEq, Repr

/-- An entry of `evolution_log` (`main.py` lines 138-144).  The dict key
`"type"` is embedded as the field `etype` (`type` is a Lean keyword);
`conversation_context` records the length of the history at logging
time, modelled as the number of history events. -/
structure EvoEntry where
  timestamp : Text
  etype : Text
  description : EvoDescr
  source : Text
  conversation_context : Nat
deriving DecidableEq, Repr

/-- The contents of the pickle file `ai_memory.pkl`
(`main.py` lines 123-129). -/
structure SavedData where
  memory : List (Text × Text)
  patterns : List Pattern
  functions : List (Text × Text)
  evolution : List EvoEntry
  last_saved : Text
deriving DecidableEq, Repr

/-- One event per `update_history` call site reached by the embedded
code, carrying the data interpolated into the displayed message. -/
inductive Msg where
  | bashReady (src body : Text)
  | pythonReady (src body : Text)
  | selfModReady (src body : Text)
  | noBashPending
  | noPythonPending
  | noSelfModPending
  | execBashStart (src : Text)
  | execPythonStart (src : Text)
  | bashSuccess (stdout : Text)
  | bashFailed (stderr : Text)
  | bashTimeout
  | bashExecError (msg : Text)
  | pySuccess (stdout : Text)
  | pyFailed (stderr : Text)
  | pyTimeout
  | pyExecError (msg : Text)
  | applyingSelfMod (src : Text)
  | memoryUpdated (u : List (Text × Text))
  | patternLearned (p : Text)
  | functionAdded (name : Text)
  | selfModExecuted
  | selfModFailed (msg : Text)
  | selfModErrorMsg (msg : Text)
  | memorySaved
  | memoryLoaded
  | delegatingGpt
  | delegatingClaude
  | gptResponse (t : Text)
  | claudeResponse (t : Text)
  | orchestratorResponse (t : Option Text)
  | decisionParseError (msg : Text)
deriving DecidableEq, Repr

/-- Whether a history event is one of the `❌`/`⚠️`-style failure reports
of the source (as opposed to a staging banner, a response display or a
success notice). -/
def Msg.isErrorReport : Msg → Bool
  | .noBashPending => true
  | .noPythonPending => true
  | .noSelfModPending => true
  | .bashFailed _ => true
  | .bashTimeout => true
  | .bashExecError _ => true
  | .pyFailed _ => true
  | .pyTimeout => true
  | .pyExecError _ => true
  | .selfModFailed _ => true
  | .selfModErrorMsg _ => true
  | .decisionParseError _ => true
  | _ => false

/-- The mutable module state of `main.py` (lines 25-34 and the file
system effects the embedded functions perform).  `tempFiles` is the set
of currently existing temporary files created by `run_python_code`
(named by a fresh counter `nextTemp`); `executions` logs each body
handed to `subprocess.run`; `disk` is the pickle file. -/
structure OrchState where
  pending_bash_code : Text
  pending_python_code : Text
  pending_self_mod : Text
  pending_code_source : Text
  ai_memory : List (Text × Text)
  learned_patterns : List Pattern
  custom_functions : List (Text × Text)
  evolution_log : List EvoEntry
  tempFiles : List Nat
  nextTemp : Nat
  executions : List Text
  disk : Option SavedData
  events : List Msg
deriving DecidableEq, Repr

/-- The initial module state (`main.py` lines 25-34): every slot empty,
memory empty, no pickle file, fresh process. -/
def initState : OrchState where
  pending_bash_code := []
  pending_python_code := []
  pending_self_mod := []
  pending_code_source := []
  ai_memory := []
  learned_patterns := []
  custom_functions := []
  evolution_log := []
  tempFiles := []
  nextTemp := 0
  executions := []
  disk := none
  events := []

/-- Python `dict` assignment `d[k] = v`: replace the value at an existing
key, else append the binding. -/
def dictInsert (d : List (Text × Text)) (k v : Text) : List (Text × Text) :=
  if d.any (fun kv => kv.1 = k) then
    d.map (fun kv => if kv.1 = k then (k, v) else kv)
  else
    d ++ [(k, v)]

/-- Python `d.update(u)`: insert every binding of `u` into `d` in order. -/
def dictUpdate (d u : List (Text × Text)) : List (Text × Text) :=
  u.foldl (fun acc kv => dictInsert acc kv.1 kv.2) d

/-- `save_ai_memory` (`main.py` lines 120-134): serialise the four memory
fields plus a `last_saved` timestamp and overwrite the pickle file,
then report success.  The `except` arm (a failing `pickle.dump` or file
write) is an external-I/O failure outside the model, which treats the
write as succeeding. -/
def save_ai_memory (st : OrchState) (now : Text) : OrchState :=
  { st with
    disk := some
      { memory := st.ai_memory
        patterns := st.learned_patterns
        functions := st.custom_functions
        evolution := st.evolution_log
        last_saved := now }
    events := st.events ++ [.memorySaved] }

/-- `load_ai_memory` (`main.py` lines 106-118): if the pickle file
exists, read it and install its four fields, then report success; a
missing file leaves the state untouched.  The `data.get` defaults are
unreachable for any file written by `save_ai_memory`, which always
stores all four keys. -/
def load_ai_memory (st : OrchState) : OrchState :=
  match st.disk with
  | some d =>
      { st with
        ai_memory := d.memory
        learned_patterns := d.patterns
        custom_functions := d.functions
        evolution_log := d.evolution
        events := st.events ++ [.memoryLoaded] }
  | none => st

/-- `log_evolution` (`main.py` lines 136-146): append one evolution
entry (timestamped, typed, with the current history length as context)
and persist the bundle. -/
def log_evolution (st : OrchState) (etype : Text) (descr : EvoDescr)
    (src now : Text) : OrchState :=
  save_ai_memory
    { st with
      evolution_log := st.evolution_log ++
        [{ timestamp := now, etype := etype, description := descr,
           source := src, conversation_context := st.events.length }] }
    now

/-- The literal tag markers of the artifact grammar. -/
def bashOpen : Text := "@Bash".data
def bashClose : Text := "@EndBash".data
def pythonOpen : Text := "@Python".data
def pythonClose : Text := "@EndPython".data
def selfModOpen : Text := "@SelfMod".data
def selfModClose : Text := "@EndSelfMod".data

/-- The `@Bash` block of `extract_and_store_code` (`main.py` lines
188-195): when both markers occur, stage the stripped slice between the
end of the first `@Bash` (5 characters) and the start of the first
`@EndBash`, record provenance, and display the staging banner. -/
def extractBash (response_text source_ai : Text) (st : OrchState) : OrchState :=
  if containsSub response_text bashOpen && containsSub response_text bashClose then
    let start := (findSub response_text bashOpen).getD 0 + 5
    let stop := (findSub response_text bashClose).getD 0
    let body := pyStrip (pySlice response_text start stop)
    { st with
      pending_bash_code := body
      pending_code_source := source_ai
      events := st.events ++ [.bashReady source_ai body] }
  else st

/-- The `@Python` block of `extract_and_store_code` (`main.py` lines
198-205), identical in shape with a 7-character open marker. -/
def extractPython (response_text source_ai : Text) (st : OrchState) : OrchState :=
  if containsSub response_text pythonOpen && containsSub response_text pythonClose then
    let start := (findSub response_text pythonOpen).getD 0 + 7
    let stop := (findSub response_text pythonClose).getD 0
    let body := pyStrip (pySlice response_text start stop)
    { st with
      pending_python_code := body
      pending_code_source := source_ai
      events := st.events ++ [.pythonReady source_ai body] }
  else st

/-- The `@SelfMod` block of `extract_and_store_code` (`main.py` lines
208-216), identical in shape with an 8-character open marker. -/
def extractSelfMod (response_text source_ai : Text) (st : OrchState) : OrchState :=
  if containsSub response_text selfModOpen && containsSub response_text selfModClose then
    let start := (findSub response_text selfModOpen).getD 0 + 8
    let stop := (findSub response_text selfModClose).getD 0
    let body := pyStrip (pySlice response_text start stop)
    { st with
      pending_self_mod := body
      pending_code_source := source_ai
      events := st.events ++ [.selfModReady source_ai body] }
  else st

/-- `extract_and_store_code` (`main.py` lines 183-216): the three
independent marker checks, run in source order. -/
def extract_and_store_code (response_text source_ai : Text) (st : OrchState) :
    OrchState :=
  extractSelfMod response_text source_ai
    (extractPython response_text source_ai
      (extractBash response_text source_ai st))

/-- The three artifact kinds of the tag grammar. -/
inductive Kind where
  | bash
  | python
  | selfmod
deriving DecidableEq, Repr

/-- The open marker of a kind. -/
def openMarker : Kind → Text
  | .bash => bashOpen
  | .python => pythonOpen
  | .selfmod => selfModOpen

/-- The close marker of a kind. -/
def closeMarker : Kind → Text
  | .bash => bashClose
  | .python => pythonClose
  | .selfmod => selfModClose

/-- The length of a kind's open marker (5, 7, 8 in the source). -/
def openLen : Kind → Nat
  | .bash => 5
  | .python => 7
  | .selfmod => 8

/-- The pending slot of a kind. -/
def slotOf : Kind → OrchState → Text
  | .bash, st => st.pending_bash_code
  | .python, st => st.pending_python_code
  | .selfmod, st => st.pending_self_mod

/-- Whether a text carries both markers of a kind (the staging guard). -/
def wellFormed (k : Kind) (t : Text) : Bool :=
  containsSub t (openMarker k) && containsSub t (closeMarker k)

/-- The body the extractor stages for a well-formed kind: the stripped
slice between the end of the first open marker and the start of the
first close marker. -/
def stagedBody (k : Kind) (t : Text) : Text :=
  pyStrip (pySlice t ((findSub t (openMarker k)).getD 0 + openLen k)
    ((findSub t (closeMarker k)).getD 0))

/-- The structured self-modification record (`main.py` lines 231-247):
up to three optional fields, each applied independently when present.
A JSON body that is not an object is covered by the all-`none` record
(Python `in` finds none of the three keys in it, and `log_evolution`
still runs). -/
structure ModRecord where
  memory_update : Option (List (Text × Text))
  new_pattern : Option Text
  new_function : Option (Text × Text)
deriving DecidableEq, Repr

/-- The outcome of the `exec` fallback (`main.py` lines 258-277): on
success, the (possibly in-place mutated) memory mapping, pattern list
and function table; on failure, the exception message.  Name
reassignments inside `exec` do not reach the module globals, but
in-place mutation of the exposed objects does, which the `ok` fields
capture. -/
inductive ExecSM where
  | ok (mem : List (Text × Text)) (pats : List Pattern)
      (funcs : List (Text × Text))
  | err (msg : Text)
deriving DecidableEq, Repr

/-- The fate of `json.loads(pending_self_mod)` and of the branch it
selects in `apply_self_modification`:

* `structured r` — the body parsed and the three-field application ran
  without raising;
* `notJson ex` — `json.loads` raised `JSONDecodeError`, so the body was
  handed to `exec` with outcome `ex`;
* `applyError msg mem pats funcs` — the structured branch raised some
  other exception part-way (e.g. a `new_function` value without a
  `name` key), caught by the outer `except Exception` at line 279; the
  fields carry whatever partial mutation had already happened. -/
inductive SelfModParse where
  | structured (r : ModRecord)
  | notJson (ex : ExecSM)
  | applyError (msg : Text) (mem : List (Text × Text))
      (pats : List Pattern) (funcs : List (Text × Text))
deriving DecidableEq, Repr

/-- `apply_self_modification` (`main.py` lines 218-283), parametrised by
the parse/execution fate of the body and the current timestamp.  An
empty slot reports and returns; otherwise the selected branch runs, and
in every branch the slot is cleared and the bundle saved afterwards
(lines 282-283). -/
def apply_self_modification (st : OrchState) (parse : SelfModParse)
    (now : Text) : OrchState :=
  if st.pending_self_mod = [] then
    { st with events := st.events ++ [.noSelfModPending] }
  else
    let st1 : OrchState :=
      { st with events := st.events ++ [.applyingSelfMod st.pending_code_source] }
    let st2 : OrchState :=
      match parse with
      | .structured r =>
          let stA : OrchState :=
            match r.memory_update with
            | some u =>
                { st1 with
                  ai_memory := dictUpdate st1.ai_memory u
                  events := st1.events ++ [.memoryUpdated u] }
            | none => st1
          let stB : OrchState :=
            match r.new_pattern with
            | some p =>
                { stA with
                  learned_patterns := stA.learned_patterns ++
                    [{ pattern := p, learned_from := st.pending_code_source,
                       timestamp := now }]
                  events := stA.events ++ [.patternLearned p] }
            | none => stA
          let stC : OrchState :=
            match r.new_function with
            | some nf =>
                { stB with
                  custom_functions := dictInsert stB.custom_functions nf.1 nf.2
                  events := stB.events ++ [.functionAdded nf.1] }
            | none => stB
          log_evolution stC "self_modification".data
            (.appliedMod r.memory_update r.new_pattern r.new_function)
            st.pending_code_source now
      | .notJson ex =>
          match ex with
          | .ok mem pats funcs =>
              log_evolution
                { st1 with
                  ai_memory := mem
                  learned_patterns := pats
                  custom_functions := funcs
                  events := st1.events ++ [.selfModExecuted] }
                "code_execution".data
                (.execCode (st.pending_self_mod.take 100))
                st.pending_code_source now
          | .err msg =>
              { st1 with events := st1.events ++ [.selfModFailed msg] }
      | .applyError msg mem pats funcs =>
          { st1 with
            ai_memory := mem
            learned_patterns := pats
            custom_functions := funcs
            events := st1.events ++ [.selfModErrorMsg msg] }
    save_ai_memory { st2 with pending_self_mod := [] } now

/-- The fate of a `subprocess.run` call (`main.py` lines 294-300 and
325-330): completion with an exit code and captured streams, a raised
`TimeoutExpired`, or any other raised launch exception. -/
inductive ExecOutcome where
  | completed (exitCode : Int) (stdout stderr : Text)
  | timedOut
  | launchError (msg : Text)
deriving DecidableEq, Repr

/-- `run_bash_code` (`main.py` lines 285-310), parametrised by the
subprocess fate.  An empty slot reports and returns; otherwise the body
is handed to the shell (logged in `executions`), the outcome is
reported, and the slot is cleared afterwards (line 310, reached in all
branches because both `except` arms catch). -/
def run_bash_code (st : OrchState) (outcome : ExecOutcome) : OrchState :=
  if st.pending_bash_code = [] then
    { st with events := st.events ++ [.noBashPending] }
  else
    let st1 : OrchState :=
      { st with
        events := st.events ++ [.execBashStart st.pending_code_source]
        executions := st.executions ++ [st.pending_bash_code] }
    let st2 : OrchState :=
      match outcome with
      | .completed code stdout stderr =>
          if code = 0 then { st1 with events := st1.events ++ [.bashSuccess stdout] }
          else { st1 with events := st1.events ++ [.bashFailed stderr] }
      | .timedOut => { st1 with events := st1.events ++ [.bashTimeout] }
      | .launchError msg => { st1 with events := st1.events ++ [.bashExecError msg] }
    { st2 with pending_bash_code := [] }

/-- `run_python_code` (`main.py` lines 312-343), parametrised by the
subprocess fate.  An empty slot reports and returns; otherwise the body
is written to a fresh temporary file (`tempfile.NamedTemporaryFile`
with `delete=False`, modelled by the fresh name `st.nextTemp`), the
interpreter is invoked on it (logged in `executions`), and the slot is
cleared afterwards (line 343).  `os.unlink` at line 332 runs only when
`subprocess.run` returns: when it raises (`timedOut` or `launchError`),
the temporary file stays on disk.  (A failure of the temporary-file
creation itself, before any file exists, is outside this model, which
covers executions that reach the interpreter invocation.) -/
def run_python_code (st : OrchState) (outcome : ExecOutcome) : OrchState :=
  if st.pending_python_code = [] then
    { st with events := st.events ++ [.noPythonPending] }
  else
    let tf := st.nextTemp
    let st1 : OrchState :=
      { st with
        tempFiles := st.tempFiles ++ [tf]
        nextTemp := tf + 1
        events := st.events ++ [.execPythonStart st.pending_code_source]
        executions := st.executions ++ [st.pending_python_code] }
    let st2 : OrchState :=
      match outcome with
      | .completed code stdout stderr =>
          let stU : OrchState := { st1 with tempFiles := st1.tempFiles.erase tf }
          if code = 0 then { stU with events := stU.events ++ [.pySuccess stdout] }
          else { stU with events := stU.events ++ [.pyFailed stderr] }
      | .timedOut => { st1 with events := st1.events ++ [.pyTimeout] }
      | .launchError msg => { st1 with events := st1.events ++ [.pyExecError msg] }
    { st2 with pending_python_code := [] }

/-- The behaviour of a provider call as seen from inside the `try` of a
connector (`src/ai_connectors.py`): either the reply text, or the
message of whatever exception the provider stack raised (client
construction, network call and response-field access all sit inside the
`try`). -/
abbrev ProviderResult := Except Text Text

/-- `call_gemini` (`ai_connectors.py` lines 15-22): the reply on
success, `"Gemini Error: " + message` on any provider exception. -/
def call_gemini (provider : ProviderResult) : Text :=
  match provider with
  | .ok t => t
  | .error e => "Gemini Error: ".data ++ e

/-- `call_gpt` (`ai_connectors.py` lines 24-33). -/
def call_gpt (provider : ProviderResult) : Text :=
  match provider with
  | .ok t => t
  | .error e => "GPT Error: ".data ++ e

/-- `call_claude` (`ai_connectors.py` lines 35-45). -/
def call_claude (provider : ProviderResult) : Text :=
  match provider with
  | .ok t => t
  | .error e => "Claude Error: ".data ++ e

/-- The fate of `json.loads` on the fence-stripped decision reply
(`main.py` line 403): on success, the values of `decision.get("action")`
and `decision.get("prompt")` — `none` for a missing key, and a
non-string `action` value behaves like a string equal to none of the
three recognised names; on failure, the exception message.  A parsed
non-dict (where `.get` raises `AttributeError`) is covered by `fail`,
since the outer `except Exception` catches it identically. -/
inductive DecisionParse where
  | ok (action : Option Text) (prompt : Option Text)
  | fail (msg : Text)
deriving DecidableEq, Repr

/-- The error text built at `main.py` line 423. -/
def decisionErrorText (msg raw : Text) : Text :=
  "Error parsing decision: ".data ++ msg ++ "\nRaw output: ".data ++ raw

/-- The `TypeError` message raised when `extract_and_store_code`
receives a `None` prompt (`"argument of type ... is not iterable"`;
its literal text is immaterial to the properties below). -/
def noneTypePromptError : Text :=
  "argument of type NoneType is not iterable".data

/-- The decision-routing block of `handle_submission` for the
`orchestrate` action (`main.py` lines 402-425), parametrised by the
parse fate of the Gemini reply, the raw reply itself (interpolated into
the error text), and the specialists' replies.  Returns the new state
and `specialist_output`.

* `delegate_to_gpt` / `delegate_to_claude`: display the delegation
  notice and the specialist reply, feed it to the extractor.
* any other parsed decision with a `prompt` value: display it as the
  orchestrator response and feed it to the extractor (the source `else`
  at line 417 covers `respond_to_user` and every unrecognised action
  alike).
* any other parsed decision without a `prompt`: displaying `None`
  succeeds, then the extractor raises `TypeError`, caught at line 422.
* a parse failure: display the error report only. -/
def handle_orchestrate (st : OrchState) (parse : DecisionParse)
    (rawReply gptReply claudeReply : Text) : OrchState × Text :=
  match parse with
  | .fail msg =>
      let m := decisionErrorText msg rawReply
      ({ st with events := st.events ++ [.decisionParseError m] }, m)
  | .ok action prompt =>
      if action = some "delegate_to_gpt".data then
        let st1 : OrchState :=
          { st with events := st.events ++ [.delegatingGpt, .gptResponse gptReply] }
        (extract_and_store_code gptReply "GPT-4o".data st1, gptReply)
      else if action = some "delegate_to_claude".data then
        let st1 : OrchState :=
          { st with events := st.events ++ [.delegatingClaude, .claudeResponse claudeReply] }
        (extract_and_store_code claudeReply "Claude".data st1, claudeReply)
      else
        match prompt with
        | some p =>
            let st1 : OrchState :=
              { st with events := st.events ++ [.orchestratorResponse (some p)] }
            (extract_and_store_code p "Orchestrator".data st1, p)
        | none =>
            let m := decisionErrorText noneTypePromptError rawReply
            ({ st with
               events := st.events ++
                 [.orchestratorResponse none, .decisionParseError m] }, m)

theorem extractBash_python_slot (t s : Text) (st : OrchState) :
    (extractBash t s st).pending_python_code = st.pending_python_code := by
  unfold extractBash; split_ifs <;> rfl

theorem extractBash_selfmod_slot (t s : Text) (st : OrchState) :
    (extractBash t s st).pending_self_mod = st.pending_self_mod := by
  unfold extractBash; split_ifs <;> rfl

theorem extractPython_bash_slot (t s : Text) (st : OrchState) :
    (extractPython t s st).pending_bash_code = st.pending_bash_code := by
  unfold extractPython; split_ifs <;> rfl

theorem extractPython_selfmod_slot (t s : Text) (st : OrchState) :
    (extractPython t s st).pending_self_mod = st.pending_self_mod := by
  unfold extractPython; split_ifs <;> rfl

theorem extractSelfMod_bash_slot (t s : Text) (st : OrchState) :
    (extractSelfMod t s st).pending_bash_code = st.pending_bash_code := by
  unfold extractSelfMod; split_ifs <;> rfl

theorem extractSelfMod_python_slot (t s : Text) (st : OrchState) :
    (extractSelfMod t s st).pending_python_code = st.pending_python_code := by
  unfold extractSelfMod; split_ifs <;> rfl

theorem extractBash_bash_slot (t s : Text) (st : OrchState) :
    (extractBash t s st).pending_bash_code =
      if wellFormed .bash t then stagedBody .bash t else st.pending_bash_code := by
  simp only [extractBash, wellFormed, stagedBody, openMarker, closeMarker, openLen]
  split_ifs <;> rfl

theorem extractPython_python_slot (t s : Text) (st : OrchState) :
    (extractPython t s st).pending_python_code =
      if wellFormed .python t then stagedBody .python t else st.pending_python_code := by
  simp only [extractPython, wellFormed, stagedBody, openMarker, closeMarker, openLen]
  split_ifs <;> rfl

theorem extractSelfMod_selfmod_slot (t s : Text) (st : OrchState) :
    (extractSelfMod t s st).pending_self_mod =
      if wellFormed .selfmod t then stagedBody .selfmod t else st.pending_self_mod := by
  simp only [extractSelfMod, wellFormed, stagedBody, openMarker, closeMarker, openLen]
  split_ifs <;> rfl

/-- The per-kind characterisation of the extractor: each kind's slot is
staged exactly when its own two markers are present, and is untouched
otherwise — independently of the other kinds. -/
theorem slot_extract (k : Kind) (t s : Text) (st : OrchState) :
    slotOf k (extract_and_store_code t s st) =
      if wellFormed k t then stagedBody k t else slotOf k st := by
  cases k with
  | bash =>
      show (extractSelfMod t s (extractPython t s (extractBash t s st))).pending_bash_code = _
      rw [extractSelfMod_bash_slot, extractPython_bash_slot, extractBash_bash_slot]
      rfl
  | python =>
      show (extractSelfMod t s (extractPython t s (extractBash t s st))).pending_python_code = _
      rw [extractSelfMod_python_slot, extractPython_python_slot, extractBash_python_slot]
      rfl
  | selfmod =>
      show (extractSelfMod t s (extractPython t s (extractBash t s st))).pending_self_mod = _
      rw [extractSelfMod_selfmod_slot, extractPython_selfmod_slot, extractBash_selfmod_slot]
      rfl

theorem extractBash_events (t s : Text) (st : OrchState) :
    ∃ added, (extractBash t s st).events = st.events ++ added ∧
      ∀ m ∈ added, m.isErrorReport = false := by
  unfold extractBash; split_ifs
  · refine ⟨_, rfl, ?_⟩
    intro m hm
    rw [List.mem_singleton] at hm
    subst hm
    rfl
  · exact ⟨[], by simp, by simp⟩

theorem extractPython_events (t s : Text) (st : OrchState) :
    ∃ added, (extractPython t s st).events = st.events ++ added ∧
      ∀ m ∈ added, m.isErrorReport = false := by
  unfold extractPython; split_ifs
  · refine ⟨_, rfl, ?_⟩
    intro m hm
    rw [List.mem_singleton] at hm
    subst hm
    rfl
  · exact ⟨[], by simp, by simp⟩

theorem extractSelfMod_events (t s : Text) (st : OrchState) :
    ∃ added, (extractSelfMod t s st).events = st.events ++ added ∧
      ∀ m ∈ added, m.isErrorReport = false := by
  unfold extractSelfMod; split_ifs
  · refine ⟨_, rfl, ?_⟩
    intro m hm
    rw [List.mem_singleton] at hm
    subst hm
    rfl
  · exact ⟨[], by simp, by simp⟩

/-- The extractor only appends staging banners to the history, never a
failure report. -/
theorem extract_events_append (t s : Text) (st : OrchState) :
    ∃ added, (extract_and_store_code t s st).events = st.events ++ added ∧
      ∀ m ∈ added, m.isErrorReport = false := by
  obtain ⟨a1, h1, p1⟩ := extractBash_events t s st
  obtain ⟨a2, h2, p2⟩ := extractPython_events t s (extractBash t s st)
  obtain ⟨a3, h3, p3⟩ := extractSelfMod_events t s (extractPython t s (extractBash t s st))
  refine ⟨a1 ++ a2 ++ a3, ?_, ?_⟩
  · show (extractSelfMod t s (extractPython t s (extractBash t s st))).events = _
    rw [h3, h2, h1]
    simp [List.append_assoc]
  · intro m hm
    rcases List.mem_append.mp hm with hm' | hm'
    · rcases List.mem_append.mp hm' with hm'' | hm''
      · exact p1 m hm''
      · exact p2 m hm''
    · exact p3 m hm'

/-- C4: for every input text containing both `@Python` and `@EndPython`,
the extractor stages as the script-A artifact exactly the whitespace-
trimmed substring strictly between the end of the first `@Python`
occurrence and the start of the first `@EndPython` occurrence,
regardless of any other surrounding content or staging of other
kinds. -/
theorem extractor_stages_python_exact (t src : Text) (st : OrchState)
    (h1 : containsSub t pythonOpen = true) (h2 : containsSub t pythonClose = true) :
    (extract_and_store_code t src st).pending_python_code =
      pyStrip (pySlice t ((findSub t pythonOpen).getD 0 + 7)
        ((findSub t pythonClose).getD 0)) := by
  show (extractSelfMod t src (extractPython t src (extractBash t src st))).pending_python_code = _
  rw [extractSelfMod_python_slot, extractPython_python_slot]
  simp [wellFormed, stagedBody, openMarker, closeMarker, openLen, h1, h2]

/-- Concrete input for the C4 witness. -/
def pyDemoText : Text := "say @Python  print(7)  @EndPython thanks".data

/-- Witness for C4 at a concrete input with surrounding content. -/
theorem extractor_stages_python_exact_witness :
    containsSub pyDemoText pythonOpen = true ∧
    containsSub pyDemoText pythonClose = true ∧
    (extract_and_store_code pyDemoText "GPT-4o".data initState).pending_python_code =
      pyStrip (pySlice pyDemoText ((findSub pyDemoText pythonOpen).getD 0 + 7)
        ((findSub pyDemoText pythonClose).getD 0)) ∧
    (extract_and_store_code pyDemoText "GPT-4o".data initState).pending_python_code =
      "print(7)".data :=
  ⟨by decide, by decide,
   extractor_stages_python_exact pyDemoText "GPT-4o".data initState (by decide) (by decide),
   by decide⟩

/-- C7: for every input text lacking the open or the close marker of a
kind, that kind's pending slot is unchanged; every other kind's slot is
still determined solely by its own markers (staged when well-formed,
untouched otherwise); and nothing the extractor appends to the history
is a failure report. -/
theorem extractor_malformed_kind_no_stage (k : Kind) (t src : Text) (st : OrchState)
    (h : wellFormed k t = false) :
    slotOf k (extract_and_store_code t src st) = slotOf k st ∧
    (∀ k2 : Kind, k2 ≠ k →
      slotOf k2 (extract_and_store_code t src st) =
        if wellFormed k2 t then stagedBody k2 t else slotOf k2 st) ∧
    ∃ added, (extract_and_store_code t src st).events = st.events ++ added ∧
      ∀ m ∈ added, m.isErrorReport = false := by
  refine ⟨?_, ?_, extract_events_append t src st⟩
  · rw [slot_extract, h]
    rfl
  · intro k2 _
    exact slot_extract k2 t src st

/-- Concrete input for the C7 witness: an open marker with no close. -/
def malformedDemoText : Text := "@Python print(1) with no close tag".data

/-- Witness for C7 at a concrete malformed input. -/
theorem extractor_malformed_kind_no_stage_witness :
    wellFormed .python malformedDemoText = false ∧
    (slotOf .python (extract_and_store_code malformedDemoText "Claude".data initState) =
        slotOf .python initState ∧
      (∀ k2 : Kind, k2 ≠ .python →
        slotOf k2 (extract_and_store_code malformedDemoText "Claude".data initState) =
          if wellFormed k2 malformedDemoText then stagedBody k2 malformedDemoText
          else slotOf k2 initState) ∧
      ∃ added, (extract_and_store_code malformedDemoText "Claude".data initState).events =
          initState.events ++ added ∧
        ∀ m ∈ added, m.isErrorReport = false) :=
  ⟨by decide,
   extractor_malformed_kind_no_stage .python malformedDemoText "Claude".data initState (by decide)⟩

/-- C3: executing the staged script-B or script-A artifact leaves the
corresponding pending slot empty afterwards, for every subprocess fate
(exit code 0, nonzero exit code, timeout, or any other launch error). -/
theorem execution_always_clears_slot (st : OrchState) (o : ExecOutcome) :
    (run_bash_code st o).pending_bash_code = [] ∧
    (run_python_code st o).pending_python_code = [] := by
  constructor
  · by_cases h : st.pending_bash_code = []
    · simp [run_bash_code, h]
    · rw [run_bash_code, if_neg h]
  · by_cases h : st.pending_python_code = []
    · simp [run_python_code, h]
    · rw [run_python_code, if_neg h]

/-- A staged Python body used to exercise the timeout path of
`run_python_code`. -/
def pyTimeoutDemo : OrchState :=
  { initState with pending_python_code := "import time\ntime.sleep(60)".data }

/-- C2 (divergence exhibit): executing a staged script-A body whose
subprocess run times out leaves the freshly created temporary file on
disk — `os.unlink` at `main.py` line 332 sits before the
`TimeoutExpired` handler and is skipped when `subprocess.run` raises —
while a completed run does delete it.  The slot is still cleared. -/
theorem run_python_timeout_leaks_tempfile :
    (run_python_code pyTimeoutDemo .timedOut).tempFiles = [0] ∧
    (run_python_code pyTimeoutDemo (.completed 0 [] [])).tempFiles = [] ∧
    (run_python_code pyTimeoutDemo .timedOut).pending_python_code = [] := by
  refine ⟨?_, ?_, ?_⟩ <;> rfl

/-- C10: invoking script-B execution, script-A execution, or
self-modification application while the corresponding slot is empty
only appends the "nothing pending" report: every other component of the
state — all pending slots, the memory bundle, the execution log, the
temporary files and the persisted file — is unchanged. -/
theorem empty_slot_noop (st1 st2 st3 : OrchState) (o1 o2 : ExecOutcome)
    (parse : SelfModParse) (now : Text)
    (h1 : st1.pending_bash_code = []) (h2 : st2.pending_python_code = [])
    (h3 : st3.pending_self_mod = []) :
    run_bash_code st1 o1 = { st1 with events := st1.events ++ [.noBashPending] } ∧
    run_python_code st2 o2 = { st2 with events := st2.events ++ [.noPythonPending] } ∧
    apply_self_modification st3 parse now =
      { st3 with events := st3.events ++ [.noSelfModPending] } := by
  refine ⟨?_, ?_, ?_⟩
  · rw [run_bash_code, if_pos h1]
  · rw [run_python_code, if_pos h2]
  · rw [apply_self_modification, if_pos h3]

/-- Witness for C10 at the initial state (all slots empty). -/
theorem empty_slot_noop_witness :
    initState.pending_bash_code = [] ∧
    initState.pending_python_code = [] ∧
    initState.pending_self_mod = [] ∧
    (run_bash_code initState .timedOut =
        { initState with events := initState.events ++ [.noBashPending] } ∧
      run_python_code initState .timedOut =
        { initState with events := initState.events ++ [.noPythonPending] } ∧
      apply_self_modification initState (.notJson (.err [])) [] =
        { initState with events := initState.events ++ [.noSelfModPending] }) :=
  ⟨rfl, rfl, rfl,
   empty_slot_noop initState initState initState .timedOut .timedOut
     (.notJson (.err [])) [] rfl rfl rfl⟩

/-- C5: applying a non-empty staged self-modification whose body parses
as a structured record with only `new_pattern` set appends exactly one
pattern entry (timestamped, credited to the staging provenance) and
exactly one evolution-log entry, and leaves the memory mapping and the
functions table unchanged. -/
theorem selfmod_new_pattern_frame (st : OrchState) (p now : Text)
    (h : st.pending_self_mod ≠ []) :
    (apply_self_modification st
        (.structured { memory_update := none, new_pattern := some p, new_function := none })
        now).learned_patterns =
      st.learned_patterns ++
        [{ pattern := p, learned_from := st.pending_code_source, timestamp := now }] ∧
    (∃ e, (apply_self_modification st
        (.structured { memory_update := none, new_pattern := some p, new_function := none })
        now).evolution_log = st.evolution_log ++ [e]) ∧
    (apply_self_modification st
        (.structured { memory_update := none, new_pattern := some p, new_function := none })
        now).ai_memory = st.ai_memory ∧
    (apply_self_modification st
        (.structured { memory_update := none, new_pattern := some p, new_function := none })
        now).custom_functions = st.custom_functions := by
  rw [apply_self_modification, if_neg h]
  exact ⟨rfl, ⟨_, rfl⟩, rfl, rfl⟩

/-- A staged pattern-only self-modification used as the C5 witness. -/
def patternOnlyDemo : OrchState :=
  { initState with
    pending_self_mod := "new_pattern only".data
    pending_code_source := "Gemini".data }

/-- Witness for C5 at a concrete state. -/
theorem selfmod_new_pattern_frame_witness :
    patternOnlyDemo.pending_self_mod ≠ [] ∧
    ((apply_self_modification patternOnlyDemo
        (.structured { memory_update := none, new_pattern := some "be concise".data,
                       new_function := none })
        "2024-01-01T00:00:00".data).learned_patterns =
      patternOnlyDemo.learned_patterns ++
        [{ pattern := "be concise".data, learned_from := patternOnlyDemo.pending_code_source,
           timestamp := "2024-01-01T00:00:00".data }] ∧
      (∃ e, (apply_self_modification patternOnlyDemo
        (.structured { memory_update := none, new_pattern := some "be concise".data,
                       new_function := none })
        "2024-01-01T00:00:00".data).evolution_log = patternOnlyDemo.evolution_log ++ [e]) ∧
      (apply_self_modification patternOnlyDemo
        (.structured { memory_update := none, new_pattern := some "be concise".data,
                       new_function := none })
        "2024-01-01T00:00:00".data).ai_memory = patternOnlyDemo.ai_memory ∧
      (apply_self_modification patternOnlyDemo
        (.structured { memory_update := none, new_pattern := some "be concise".data,
                       new_function := none })
        "2024-01-01T00:00:00".data).custom_functions = patternOnlyDemo.custom_functions) :=
  ⟨by decide,
   selfmod_new_pattern_frame patternOnlyDemo "be concise".data "2024-01-01T00:00:00".data
     (by decide)⟩

/-- C6: applying any non-empty staged self-modification ends with the
pending self-modification slot cleared and the pickle file holding
exactly the resulting in-memory bundle, in every branch: structured
success, fallback code-execution success, and every failure branch. -/
theorem selfmod_always_clears_and_saves (st : OrchState) (parse : SelfModParse)
    (now : Text) (h : st.pending_self_mod ≠ []) :
    (apply_self_modification st parse now).pending_self_mod = [] ∧
    (apply_self_modification st parse now).disk = some
      { memory := (apply_self_modification st parse now).ai_memory
        patterns := (apply_self_modification st parse now).learned_patterns
        functions := (apply_self_modification st parse now).custom_functions
        evolution := (apply_self_modification st parse now).evolution_log
        last_saved := now } := by
  rw [apply_self_modification, if_neg h]
  exact ⟨rfl, rfl⟩

/-- Witness for C6 on a failing code-execution branch at a concrete
state. -/
theorem selfmod_always_clears_and_saves_witness :
    patternOnlyDemo.pending_self_mod ≠ [] ∧
    ((apply_self_modification patternOnlyDemo (.notJson (.err "NameError".data))
        "2024-01-01T00:00:00".data).pending_self_mod = [] ∧
      (apply_self_modification patternOnlyDemo (.notJson (.err "NameError".data))
        "2024-01-01T00:00:00".data).disk = some
        { memory := (apply_self_modification patternOnlyDemo (.notJson (.err "NameError".data))
            "2024-01-01T00:00:00".data).ai_memory
          patterns := (apply_self_modification patternOnlyDemo (.notJson (.err "NameError".data))
            "2024-01-01T00:00:00".data).learned_patterns
          functions := (apply_self_modification patternOnlyDemo (.notJson (.err "NameError".data))
            "2024-01-01T00:00:00".data).custom_functions
          evolution := (apply_self_modification patternOnlyDemo (.notJson (.err "NameError".data))
            "2024-01-01T00:00:00".data).evolution_log
          last_saved := "2024-01-01T00:00:00".data }) :=
  ⟨by decide,
   selfmod_always_clears_and_saves patternOnlyDemo (.notJson (.err "NameError".data))
     "2024-01-01T00:00:00".data (by decide)⟩

/-- C8: saving the Memory Bundle and then loading it back yields
field-for-field equal `memory`, `patterns`, `functions` and
`evolution_log` values (only the `last_saved` timestamp is fresh). -/
theorem memory_roundtrip (st : OrchState) (now : Text) :
    (load_ai_memory (save_ai_memory st now)).ai_memory = st.ai_memory ∧
    (load_ai_memory (save_ai_memory st now)).learned_patterns = st.learned_patterns ∧
    (load_ai_memory (save_ai_memory st now)).custom_functions = st.custom_functions ∧
    (load_ai_memory (save_ai_memory st now)).evolution_log = st.evolution_log :=
  ⟨rfl, rfl, rfl, rfl⟩

/-- C9: each of the three backend connectors is total over every
provider behaviour — the reply text on success, and on any provider
failure a text embedding the backend's name and the failure message in
the form `<Backend> Error: <message>`; no exception reaches the
caller. -/
theorem connectors_total_error_format (t e : Text) :
    call_gemini (Except.ok t) = t ∧
    call_gemini (Except.error e) = "Gemini Error: ".data ++ e ∧
    call_gpt (Except.ok t) = t ∧
    call_gpt (Except.error e) = "GPT Error: ".data ++ e ∧
    call_claude (Except.ok t) = t ∧
    call_claude (Except.error e) = "Claude Error: ".data ++ e :=
  ⟨rfl, rfl, rfl, rfl, rfl, rfl⟩

/-- A decision reply whose action is none of the three recognised names
and whose prompt carries a tagged script-A block. -/
def unknownActionPrompt : Text := "see @Python print(7) @EndPython".data

/-- C1 counterexample: a parsed decision with the unrecognised action
`"plan_project"` is NOT treated as an error report by the code — the
`else` arm at `main.py` line 417 displays its prompt as the
orchestrator response (no failure report is appended to the history),
feeds that prompt to the artifact extractor, and the extractor stages
the script-A artifact it contains. -/
theorem orchestrator_unknown_action_counterexample :
    ((handle_orchestrate initState (.ok (some "plan_project".data) (some unknownActionPrompt))
        [] [] []).1).pending_python_code = "print(7)".data ∧
    (handle_orchestrate initState (.ok (some "plan_project".data) (some unknownActionPrompt))
        [] [] []).2 = unknownActionPrompt ∧
    ∀ m ∈ ((handle_orchestrate initState (.ok (some "plan_project".data) (some unknownActionPrompt))
        [] [] []).1).events, m.isErrorReport = false := by
  refine ⟨by decide, by decide, by decide⟩

/-- C1 (amended): only a decision-parse failure is treated as an error
report with no further routing; a successfully parsed decision whose
action is neither `delegate_to_gpt` nor `delegate_to_claude` —
`respond_to_user` and every unrecognised action value alike — has its
prompt displayed as the orchestrator response and fed to the artifact
extractor. -/
theorem orchestrator_unknown_action_routes (st : OrchState) (a : Option Text)
    (p raw g c : Text)
    (hg : a ≠ some "delegate_to_gpt".data) (hc : a ≠ some "delegate_to_claude".data) :
    handle_orchestrate st (.ok a (some p)) raw g c =
      (extract_and_store_code p "Orchestrator".data
        { st with events := st.events ++ [.orchestratorResponse (some p)] }, p) ∧
    ∀ e : Text, (handle_orchestrate st (.fail e) raw g c).1 =
      { st with events := st.events ++ [.decisionParseError (decisionErrorText e raw)] } := by
  constructor
  · rw [handle_orchestrate]
    rw [if_neg hg, if_neg hc]
  · intro e
    rfl

/-- Witness for the amended C1 at a concrete unrecognised action. -/
theorem orchestrator_unknown_action_routes_witness :
    some "plan_project".data ≠ some "delegate_to_gpt".data ∧
    some "plan_project".data ≠ some "delegate_to_claude".data ∧
    (handle_orchestrate initState (.ok (some "plan_project".data) (some "hello".data))
        "raw".data [] [] =
      (extract_and_store_code "hello".data "Orchestrator".data
        { initState with
          events := initState.events ++ [.orchestratorResponse (some "hello".data)] },
        "hello".data) ∧
      ∀ e : Text, (handle_orchestrate initState (.fail e) "raw".data [] []).1 =
        { initState with
          events := initState.events ++ [.decisionParseError (decisionErrorText e "raw".data)] }) :=
  ⟨by decide, by decide,
   orchestrator_unknown_action_routes initState (some "plan_project".data)
     "hello".data "raw".data [] [] (by decide) (by decide)⟩
